import Mathlib

/-!
Verification development for the Walmart scraper repository.

The Python sources are shallowly embedded as executable Lean definitions:

* `walmart_scraper/utils.py`: `fetch_html`, `ensure_product_url`,
  `normalize_price`.
* `walmart_canada_scraper.py`: `rotate_proxy`, `_mark_api_blocked`,
  `_detect_promo_type`, `_normalize_product`, `_extract_products_via_api`,
  `scrape_store_page`.

Modelling conventions:

* Python's loosely typed JSON values are the inductive `JValue`; numbers
  (Python `int`/`float`) are `ℚ`, and Python `bool` is kept separate but
  counts as numeric for `isinstance(x, (int, float))` checks, exactly as in
  CPython.  Python `None` and JSON `null` are both `JValue.null` (CPython
  conflates them after `json.loads`).
* Network traffic, browser behaviour and wall-clock sleeps are supplied by
  environments (functions from a request counter to an outcome); `time.sleep`,
  logging and debug-file writes have no observable effect on the scraped data
  and are dropped.
* Python exceptions that escape a function are `Except.error` / a dedicated
  error constructor; `try`/`except` blocks that swallow exceptions are
  translated by the corresponding `Option`/default-value handling.
* The unbounded `while page <= max_pages` loop can fail to increment `page`
  (JSON decode error path), so the loop model takes explicit fuel; fuel
  exhaustion is a distinct result and stands for a non-terminating run.
-/

/-! ## Python-style strings and JSON values -/

/-- Python `str.startswith`, modelled on the character list. -/
def strStartsWith (s p : String) : Bool := p.data.isPrefixOf s.data

/-- Occurrence of `needle` as a contiguous subsequence of `hay`. -/
def containsSub (needle : List Char) : List Char → Bool
  | [] => needle.isEmpty
  | c :: rest => needle.isPrefixOf (c :: rest) || containsSub needle rest

/-- Python substring membership `needle in hay`. -/
def strContains (hay needle : String) : Bool := containsSub needle.data hay.data

/-- Python `str.lower()` (character-wise, on the character list). -/
def strLower (s : String) : String := ⟨s.data.map Char.toLower⟩

/-- Values produced by `json.loads` plus Python `None`/`bool` (which CPython
conflates with JSON `null`/`true`/`false`).  Numbers are `ℚ`. -/
inductive JValue where
  | null
  | bool (b : Bool)
  | num (q : ℚ)
  | str (s : String)
  | arr (elems : List JValue)
  | obj (fields : List (String × JValue))

mutual

/-- Decidable equality on `JValue` (hand-rolled: `deriving` does not support
this nested inductive on this toolchain). -/
def JValue.decEq : (a b : JValue) → Decidable (a = b)
  | .null, .null => isTrue rfl
  | .bool a, .bool b =>
    if h : a = b then isTrue (by rw [h]) else isFalse fun hh => h (by cases hh; rfl)
  | .num a, .num b =>
    if h : a = b then isTrue (by rw [h]) else isFalse fun hh => h (by cases hh; rfl)
  | .str a, .str b =>
    if h : a = b then isTrue (by rw [h]) else isFalse fun hh => h (by cases hh; rfl)
  | .arr xs, .arr ys =>
    match JValue.decEqList xs ys with
    | isTrue h => isTrue (by rw [h])
    | isFalse h => isFalse fun hh => h (by cases hh; rfl)
  | .obj fs, .obj gs =>
    match JValue.decEqFields fs gs with
    | isTrue h => isTrue (by rw [h])
    | isFalse h => isFalse fun hh => h (by cases hh; rfl)
  | .null, .bool _ => isFalse fun h => JValue.noConfusion h
  | .null, .num _ => isFalse fun h => JValue.noConfusion h
  | .null, .str _ => isFalse fun h => JValue.noConfusion h
  | .null, .arr _ => isFalse fun h => JValue.noConfusion h
  | .null, .obj _ => isFalse fun h => JValue.noConfusion h
  | .bool _, .null => isFalse fun h => JValue.noConfusion h
  | .bool _, .num _ => isFalse fun h => JValue.noConfusion h
  | .bool _, .str _ => isFalse fun h => JValue.noConfusion h
  | .bool _, .arr _ => isFalse fun h => JValue.noConfusion h
  | .bool _, .obj _ => isFalse fun h => JValue.noConfusion h
  | .num _, .null => isFalse fun h => JValue.noConfusion h
  | .num _, .bool _ => isFalse fun h => JValue.noConfusion h
  | .num _, .str _ => isFalse fun h => JValue.noConfusion h
  | .num _, .arr _ => isFalse fun h => JValue.noConfusion h
  | .num _, .obj _ => isFalse fun h => JValue.noConfusion h
  | .str _, .null => isFalse fun h => JValue.noConfusion h
  | .str _, .bool _ => isFalse fun h => JValue.noConfusion h
  | .str _, .num _ => isFalse fun h => JValue.noConfusion h
  | .str _, .arr _ => isFalse fun h => JValue.noConfusion h
  | .str _, .obj _ => isFalse fun h => JValue.noConfusion h
  | .arr _, .null => isFalse fun h => JValue.noConfusion h
  | .arr _, .bool _ => isFalse fun h => JValue.noConfusion h
  | .arr _, .num _ => isFalse fun h => JValue.noConfusion h
  | .arr _, .str _ => isFalse fun h => JValue.noConfusion h
  | .arr _, .obj _ => isFalse fun h => JValue.noConfusion h
  | .obj _, .null => isFalse fun h => JValue.noConfusion h
  | .obj _, .bool _ => isFalse fun h => JValue.noConfusion h
  | .obj _, .num _ => isFalse fun h => JValue.noConfusion h
  | .obj _, .str _ => isFalse fun h => JValue.noConfusion h
  | .obj _, .arr _ => isFalse fun h => JValue.noConfusion h

/-- Decidable equality on lists of `JValue`. -/
def JValue.decEqList : (xs ys : List JValue) → Decidable (xs = ys)
  | [], [] => isTrue rfl
  | [], _ :: _ => isFalse fun h => List.noConfusion h
  | _ :: _, [] => isFalse fun h => List.noConfusion h
  | x :: xs, y :: ys =>
    match JValue.decEq x y with
    | isFalse h => isFalse fun hh => h (by cases hh; rfl)
    | isTrue h1 =>
      match JValue.decEqList xs ys with
      | isTrue h2 => isTrue (by rw [h1, h2])
      | isFalse h => isFalse fun hh => h (by cases hh; rfl)

/-- Decidable equality on `JValue` object fields. -/
def JValue.decEqFields : (xs ys : List (String × JValue)) → Decidable (xs = ys)
  | [], [] => isTrue rfl
  | [], _ :: _ => isFalse fun h => List.noConfusion h
  | _ :: _, [] => isFalse fun h => List.noConfusion h
  | (k, v) :: xs, (k', v') :: ys =>
    if hk : k = k' then
      match JValue.decEq v v' with
      | isFalse h => isFalse fun hh => h (by cases hh; rfl)
      | isTrue hv =>
        match JValue.decEqFields xs ys with
        | isTrue h2 => isTrue (by rw [hk, hv, h2])
        | isFalse h => isFalse fun hh => h (by cases hh; rfl)
    else isFalse fun hh => hk (by cases hh; rfl)

end

instance : DecidableEq JValue := JValue.decEq

/-- Python truthiness (`bool(x)`). -/
def truthy : JValue → Bool
  | .null => false
  | .bool b => b
  | .num q => q != 0
  | .str s => !s.isEmpty
  | .arr xs => !xs.isEmpty
  | .obj fs => !fs.isEmpty

/-- Python `d.get(k)` on a dict's fields (missing key gives `None`). -/
def jGet (fs : List (String × JValue)) (k : String) : JValue :=
  (fs.lookup k).getD .null

/-- Python `d.get(k, default)`. -/
def jGetD (fs : List (String × JValue)) (k : String) (d : JValue) : JValue :=
  (fs.lookup k).getD d

/-- Python `a or b` (value-returning, on truthiness). -/
def pyOr (a b : JValue) : JValue := if truthy a then a else b

/-- Python `isinstance(v, (int, float))`; note `bool` is a subclass of `int`. -/
def isNum : JValue → Bool
  | .num _ => true
  | .bool _ => true
  | _ => false

/-- Numeric value of a Python number (`float(v)` for `int`/`float`/`bool`). -/
def toNum : JValue → ℚ
  | .num q => q
  | .bool b => if b then 1 else 0
  | _ => 0

/-- Python `str(v)`.  Scalar cases are exact; the textual repr of nested
collections is condensed to a placeholder (the promo-keyword scan in
`_detect_promo_type` is the only consumer and inspects scalar sources). -/
def pyStr : JValue → String
  | .null => "None"
  | .bool b => if b then "True" else "False"
  | .num q => toString q
  | .str s => s
  | .arr _ => "[...]"
  | .obj _ => "\x7b...\x7d"

/-- Digits-only string to `Nat` (`none` if a non-digit occurs). -/
def digitsToNat : List Char → Option Nat
  | [] => some 0
  | c :: rest =>
    if c.isDigit then
      (digitsToNat rest).map (fun n => (c.toNat - 48) * 10 ^ rest.length + n)
    else none

/-- Python `float(s)` on a decimal literal (optional sign, optional fractional
part, surrounding whitespace stripped).  Scientific notation and `inf`/`nan`
are not modelled; the scraper only feeds it price-like strings. -/
def parsePyFloat (s : String) : Option ℚ :=
  let s := s.trim
  let (neg, body) :=
    if strStartsWith s "-" then (true, s.drop 1)
    else if strStartsWith s "+" then (false, s.drop 1)
    else (false, s)
  let signed : ℚ → ℚ := fun q => if neg then -q else q
  match body.splitOn "." with
  | [ip] =>
    if ip.isEmpty then none
    else (digitsToNat ip.data).map (fun n => signed n)
  | [ip, fp] =>
    if ip.isEmpty && fp.isEmpty then none
    else
      match digitsToNat ip.data, digitsToNat fp.data with
      | some n, some f => some (signed ((n : ℚ) + (f : ℚ) / 10 ^ fp.length))
      | _, _ => none
  | _ => none

/-- Python `float(v)`: `some` when the conversion succeeds, `none` when it
raises (`TypeError`/`ValueError`). -/
def pyFloat : JValue → Option ℚ
  | .num q => some q
  | .bool b => some (if b then 1 else 0)
  | .str s => parsePyFloat s
  | _ => none

/-- Python `round(q, 2)` over `ℚ` (rounding on the exact rational; CPython's
banker's rounding on binary floats differs only at exact representation
halves). -/
def round2 (q : ℚ) : ℚ := (round (q * 100) : ℤ) / 100

/-- Decidable equality for `Except` results (not provided by core here). -/
instance {ε α : Type} [DecidableEq ε] [DecidableEq α] : DecidableEq (Except ε α) := fun a b =>
  match a, b with
  | .ok x, .ok y =>
    if h : x = y then isTrue (by rw [h]) else isFalse fun hh => h (by cases hh; rfl)
  | .error x, .error y =>
    if h : x = y then isTrue (by rw [h]) else isFalse fun hh => h (by cases hh; rfl)
  | .ok _, .error _ => isFalse fun h => Except.noConfusion h
  | .error _, .ok _ => isFalse fun h => Except.noConfusion h

/-- Python truthiness of an `Optional[str]`. -/
def optStrTruthy : Option String → Bool
  | none => false
  | some s => !s.isEmpty

/-! ## `walmart_scraper/utils.py` -/

/-- Block markers scanned for in a fetched body (`utils.BLOCK_MARKERS`). -/
def BLOCK_MARKERS : List String :=
  ["Robot or human", "captcha", "blocked", "/blocked?", "Request blocked"]

/-- Outcome of one fetch attempt inside `fetch_html`: either the attempt
raises (ScrapFly/httpx error, or the missing-client `RuntimeError`) or a
response with a status code and body text arrives. -/
inductive FetchOutcome where
  | raise
  | resp (status : Nat) (text : String)
deriving DecidableEq

/-- Blocked-response test of `fetch_html` (line 87 of `utils.py`): status in
(403, 429, 456, 503) or any block marker occurring case-insensitively. -/
def isBlockedResp (status : Nat) (text : String) : Bool :=
  (status == 403 || status == 429 || status == 456 || status == 503) ||
    BLOCK_MARKERS.any (fun m => strContains (strLower text) (strLower m))

/-- Attempt classification: an attempt fails when it raises, is blocked, or
the body lacks the `__NEXT_DATA__` payload. -/
def attemptBad : FetchOutcome → Bool
  | .raise => true
  | .resp s t => isBlockedResp s t || !strContains t "__NEXT_DATA__"

/-- Retry loop of `fetch_html` (attempt index, remaining attempts). -/
def fetch_html_go (env : Nat → FetchOutcome) : Nat → Nat → Option String
  | _, 0 => none
  | attempt, r + 1 =>
    match env attempt with
    | .raise => fetch_html_go env (attempt + 1) r
    | .resp status text =>
      if isBlockedResp status text then fetch_html_go env (attempt + 1) r
      else if !strContains text "__NEXT_DATA__" then fetch_html_go env (attempt + 1) r
      else some text

/-- `utils.fetch_html`: up to `max_attempts` attempts, returning the first
valid body or `None`. -/
def fetch_html (env : Nat → FetchOutcome) (max_attempts : Nat) : Option String :=
  fetch_html_go env 0 max_attempts

/-- `utils.ensure_product_url`. -/
def ensure_product_url (url : String) : String :=
  if strStartsWith url "http" then url else "https://www.walmart.com" ++ url

/-- First numeric value among the given keys (`normalize_price` key loop). -/
def firstNumOfKeys (fs : List (String × JValue)) : List String → Option ℚ
  | [] => none
  | k :: rest =>
    let v := jGet fs k
    if isNum v then some (toNum v) else firstNumOfKeys fs rest

/-- `utils.normalize_price`. -/
def normalize_price (price_info : JValue) : Option ℚ :=
  if !truthy price_info then none
  else if isNum price_info then some (toNum price_info)
  else
    match price_info with
    | .obj fs =>
      match firstNumOfKeys fs ["price", "minPrice", "maxPrice", "priceDisplay"] with
      | some q => some q
      | none =>
        match pyOr (jGet fs "currentPrice") (jGet fs "current") with
        | .obj cfs =>
          let amount := pyOr (jGet cfs "price") (jGet cfs "amount")
          if isNum amount then some (toNum amount) else none
        | _ => none
    | _ => none

/-- Modelled from the claim's wording (refinement check for `normalize_price`):
falsy input gives `None`; a numeric input gives its float value; a dictionary
gives the float of the first numeric value among the keys `price`, `minPrice`,
`maxPrice`, `priceDisplay`, and otherwise the `price` or `amount` inside a
nested `currentPrice`-or-`current` dictionary; every other case gives `None`. -/
def normalize_price_claim (v : JValue) : Option ℚ :=
  if !truthy v then none
  else if isNum v then some (toNum v)
  else
    match v with
    | .obj fs =>
      match (["price", "minPrice", "maxPrice", "priceDisplay"].findSome? fun k =>
          if isNum (jGet fs k) then some (toNum (jGet fs k)) else none) with
      | some q => some q
      | none =>
        match pyOr (jGet fs "currentPrice") (jGet fs "current") with
        | .obj cfs =>
          let amount := pyOr (jGet cfs "price") (jGet cfs "amount")
          if isNum amount then some (toNum amount) else none
        | _ => none
    | _ => none

/-! ## `walmart_canada_scraper.py`: scraper state and product normalization -/

/-- Mutable scraper attributes relevant to the proxy/blocking logic
(`WalmartCanadaScraper.__init__`). -/
structure ScraperState where
  proxy_list : List String
  current_proxy_index : Nat
  active_proxy : Option String
  api_blocked : Bool
deriving DecidableEq

/-- `WalmartCanadaScraper.rotate_proxy`. -/
def rotate_proxy (s : ScraperState) : Option String × ScraperState :=
  if s.proxy_list.isEmpty then (none, { s with active_proxy := none })
  else
    let proxy := s.proxy_list.getD (s.current_proxy_index % s.proxy_list.length) ""
    (some proxy,
      { s with current_proxy_index := s.current_proxy_index + 1, active_proxy := some proxy })

/-- `WalmartCanadaScraper._mark_api_blocked`: flag the API as blocked (456)
and rotate the proxy; the debug body dump has no effect on the data flow. -/
def mark_api_blocked (s : ScraperState) : ScraperState :=
  if s.api_blocked then s
  else (rotate_proxy { s with api_blocked := true }).2

/-- Keys scanned for promo hints in `_detect_promo_type`. -/
def promoSourceKeys : List String :=
  ["offerType", "priceType", "promoTag", "badgeText", "sellerBadges", "availabilityStatus"]

/-- `WalmartCanadaScraper._detect_promo_type`. -/
def detect_promo_type (raw : List (String × JValue)) (promo_hint : Option String) :
    Option String :=
  let badges0 :=
    pyOr (jGet raw "badges") (pyOr (jGet raw "tags") (pyOr (jGet raw "categoryTags") (.arr [])))
  let badges := match badges0 with
    | .obj fs => JValue.arr (fs.map Prod.snd)
    | b => b
  let fromBadges : List String := match badges with
    | .arr xs => xs.map pyStr
    | _ => []
  let sources := promoSourceKeys.foldl
    (fun acc k =>
      match jGet raw k with
      | .arr xs => acc ++ xs.map pyStr
      | v => if truthy v then acc ++ [pyStr v] else acc)
    fromBadges
  let promo_text := strLower (String.intercalate " " sources)
  if strContains promo_text "rollback" then some "rollback"
  else if strContains promo_text "clearance" then some "clearance"
  else if strContains promo_text "deal" || strContains promo_text "special" ||
      strContains promo_text "promo" then some "deal"
  else promo_hint

/-- Normalized product record built by `_normalize_product` (the Python dict's
keys become fields; values keep their loose `JValue` typing where the source
stores arbitrary JSON values). -/
structure Product where
  store_id : String
  store_slug : String
  province : String
  product_id : JValue
  sku : JValue
  name : JValue
  product_url : JValue
  current_price : JValue
  original_price : JValue
  discount_percent : Option ℚ
  promo_type : Option String
  store_quantity : JValue
deriving DecidableEq

/-- Current-price key chain inside a dict candidate
(`candidate.get("price") or candidate.get("currentPrice") or candidate.get("amount")`). -/
def curKeys (cfs : List (String × JValue)) : JValue :=
  pyOr (jGet cfs "price") (pyOr (jGet cfs "currentPrice") (jGet cfs "amount"))

/-- Original-price key chain (`wasPrice`/`originalPrice`/`compareAtPrice`/`listPrice`). -/
def origKeys (cfs : List (String × JValue)) : JValue :=
  pyOr (jGet cfs "wasPrice")
    (pyOr (jGet cfs "originalPrice") (pyOr (jGet cfs "compareAtPrice") (jGet cfs "listPrice")))

/-- One step of the `for candidate in price_candidates` loop of
`_normalize_product` (state: `(current_price, original_price)`, with
`JValue.null` standing for Python `None`). -/
def scanPriceCandidate (acc : JValue × JValue) (candidate : JValue) : JValue × JValue :=
  let (cur, orig) := acc
  match candidate with
  | .obj cfs =>
    (if cur = .null then curKeys cfs else cur,
     if orig = .null then origKeys cfs else orig)
  | .num q => (if cur = .null then .num q else cur, orig)
  | .bool b => (if cur = .null then .bool b else cur, orig)
  | .str s =>
    if cur = .null then
      match parsePyFloat ((s.replace "$" "").replace "," "") with
      | some q => (.num q, orig)
      | none => (cur, orig)
    else (cur, orig)
  | _ => (cur, orig)

/-- Discount computation of `_normalize_product` (lines 639-644): only when
both stored prices are truthy; `float()` conversion failures and division by
zero are swallowed into `None`. -/
def pyDiscount (cur orig : JValue) : Option ℚ :=
  if truthy cur && truthy orig then
    match pyFloat cur, pyFloat orig with
    | some c, some o => if o == 0 then none else some (round2 ((1 - c / o) * 100))
    | _, _ => none
  else none

/-- `WalmartCanadaScraper._normalize_product`.  `Except.error` models the
`AttributeError` raised by `.startswith` on a truthy non-string URL value. -/
def normalize_product (raw : List (String × JValue)) (store_id : Option String)
    (store_slug province : String) (promo_type : Option String) :
    Except Unit (Option Product) :=
  if !optStrTruthy promo_type then .ok none
  else
    let product_id := pyOr (jGet raw "usItemId") (pyOr (jGet raw "id")
      (pyOr (jGet raw "productId") (pyOr (jGet raw "sku") (jGet raw "itemId"))))
    let sku := pyOr (jGet raw "sku") (pyOr product_id (.str ""))
    let product_url0 :=
      pyOr (jGet raw "productPageUrl") (pyOr (jGet raw "canonicalUrl") (jGet raw "canonicalUrlKey"))
    match (if truthy product_url0 then
        match product_url0 with
        | .str s =>
          some (JValue.str (if strStartsWith s "/" then "https://www.walmart.ca" ++ s else s))
        | _ => none
      else some product_url0 : Option JValue) with
    | none => .error ()
    | some product_url =>
      let title := pyOr (jGet raw "name")
        (pyOr (jGet raw "title") (pyOr (jGet raw "description") (jGet raw "productName")))
      let price_info := pyOr (jGet raw "priceInfo") (pyOr (jGet raw "priceinfo") (.obj []))
      let cand1 : List JValue := match price_info with
        | .obj fs => [jGet fs "currentPrice", jGet fs "price", jGet fs "pricePerUnit",
            jGet fs "primaryOffer"]
        | _ => []
      let cand2 : List JValue :=
        [jGet raw "price", jGet raw "currentPrice", jGet raw "sellingPrice",
         jGet raw "primaryOffer", jGetD raw "offer" (.obj []), jGet raw "priceDisplay"]
      let scanned := (cand1 ++ cand2).foldl scanPriceCandidate (JValue.null, JValue.null)
      let cur0 := scanned.1
      let orig1 :=
        if scanned.2 = .null then
          match price_info with
          | .obj fs => origKeys fs
          | _ => JValue.null
        else scanned.2
      if !truthy title && !truthy product_url then .ok none
      else
        .ok (some {
          store_id := match store_id with
            | some s => if s.isEmpty then store_slug else s
            | none => store_slug
          store_slug := store_slug
          province := province
          product_id := pyOr product_id (.str "")
          sku := sku
          name := pyOr title (.str "")
          product_url := pyOr product_url (.str "")
          current_price := cur0
          original_price := orig1
          discount_percent := pyDiscount cur0 orig1
          promo_type := promo_type
          store_quantity := pyOr (jGet raw "quantity") (pyOr (jGet raw "availableQuantity") .null) })

/-! ## `_extract_products_via_api`: the product-search API state machine

The network is an environment `Nat → ApiOutcome` indexed by the number of API
requests issued so far (direct-session and in-browser requests share the
counter, matching program order).  `ApiOutcome.fail` is a request that does
not produce a response: for the direct `requests` session this is a raised
exception (which propagates), for `fetch_walmart_api_via_browser` it is the
`(None, None)` return value of its `except` branches. -/

/-- Response body, abstracted to the three cases the caller distinguishes:
falsy text (`""`), text that `json.loads` rejects, and parsed JSON. -/
inductive RespBody where
  | empty
  | invalid
  | parsed (v : JValue)
deriving DecidableEq

/-- Outcome of one API request (see section comment). -/
inductive ApiOutcome where
  | ok (status : Nat) (body : RespBody)
  | fail
deriving DecidableEq

/-- Fixed inputs of one `_extract_products_via_api` call. -/
structure ApiCtx where
  env : Nat → ApiOutcome
  hasDriver : Bool
  maxPages : Nat
  store_id : Option String
  store_slug : String
  province : String

/-- Mutable state threaded through `_extract_products_via_api`
(`all_products`, `seen_keys`, `use_browser_api`, the scraper attributes, and
the request counter indexing the environment). -/
structure RunSt where
  scraper : ScraperState
  reqCount : Nat
  useBrowserApi : Bool
  seen : List (JValue × JValue)
  products : List Product
deriving DecidableEq

/-- Consume one environment slot (a request was issued). -/
def bumpReq (st : RunSt) : RunSt := { st with reqCount := st.reqCount + 1 }

/-- Apply `rotate_proxy` to the embedded scraper state. -/
def rotateSt (st : RunSt) : RunSt := { st with scraper := (rotate_proxy st.scraper).2 }

/-- Apply `_mark_api_blocked` to the embedded scraper state. -/
def markBlockedSt (st : RunSt) : RunSt := { st with scraper := mark_api_blocked st.scraper }

/-- `fetch_walmart_api_via_browser`: returns `(status, body)` on success and
`(None, None)` when the in-browser fetch errors. -/
def browserFetch (env : Nat → ApiOutcome) (st : RunSt) :
    (Option Nat × Option RespBody) × RunSt :=
  match env st.reqCount with
  | .ok s b => ((some s, some b), bumpReq st)
  | .fail => ((none, none), bumpReq st)

/-- One fetch inside the attempt loop: in-browser when `use_browser_api` is
set, otherwise `session.get` (whose exceptions propagate: `none`). -/
def fetchOnce (env : Nat → ApiOutcome) (st : RunSt) :
    Option ((Option Nat × Option RespBody) × RunSt) :=
  if st.useBrowserApi then some (browserFetch env st)
  else
    match env st.reqCount with
    | .ok s b => some ((some s, some b), bumpReq st)
    | .fail => none

/-- Result of the `for attempt in range(2)` loop (lines 753-798). -/
inductive AttemptOut where
  | got (status : Option Nat) (text : Option RespBody) (st : RunSt)
  | ret412 (st : RunSt)
  | raised

/-- The `for attempt in range(2)` loop: a 412 is retried once after a backoff;
a second 412 rotates the proxy and returns the products collected so far. -/
def attemptLoop (env : Nat → ApiOutcome) (st : RunSt) : AttemptOut :=
  match fetchOnce env st with
  | none => .raised
  | some ((s, t), st1) =>
    if s == some 412 then
      match fetchOnce env st1 with
      | none => .raised
      | some ((s2, t2), st2) =>
        if s2 == some 412 then .ret412 (rotateSt st2)
        else .got s2 t2 st2
    else .got s t st1

/-- Deduplication key of a normalized product (line 873). -/
def prodKey (p : Product) : JValue × JValue := (p.product_id, p.product_url)

/-- The `for raw in items` loop (lines 869-876): detect a promo type,
normalize, and append products whose key was not seen yet.  A non-dict item
raises (`.get` on it) — `Except.error`. -/
def processItems (ctx : ApiCtx) (hint : String) : List JValue → RunSt → Except Unit RunSt
  | [], st => .ok st
  | raw :: rest, st =>
    match raw with
    | .obj rfs =>
      let promo := detect_promo_type rfs (some hint)
      match normalize_product rfs ctx.store_id ctx.store_slug ctx.province promo with
      | .error e => .error e
      | .ok none => processItems ctx hint rest st
      | .ok (some p) =>
        if st.seen.contains (prodKey p) then processItems ctx hint rest st
        else
          processItems ctx hint rest
            { st with seen := prodKey p :: st.seen, products := st.products ++ [p] }
    | _ => .error ()

/-- Control-flow outcome of one iteration of the `while page <= max_pages`
body: continue the while loop at `nextPage`, `break` to the next query,
return from the function (`early`), or raise. -/
inductive StepOut where
  | toPage (st : RunSt) (nextPage : Nat)
  | breakQ (st : RunSt)
  | early (st : RunSt)
  | err

/-- Item-list extraction (lines 855-861); `payload.get("data", {})` on a
non-dict `data` value raises `AttributeError` when reached. -/
def extractItems (fs : List (String × JValue)) : Except Unit JValue :=
  let i1 := jGet fs "items"
  if truthy i1 then .ok i1
  else
    let i2 := jGet fs "results"
    if truthy i2 then .ok i2
    else
      match jGetD fs "data" (.obj []) with
      | .obj dfs => .ok (pyOr (jGet dfs "items") (pyOr (jGet dfs "products") (.arr [])))
      | _ => .error ()

/-- Python truthiness of the `Optional[str]` response text under the
`RespBody` abstraction. -/
def textFalsy : Option RespBody → Bool
  | none => true
  | some .empty => true
  | some _ => false

/-- Processing of a truthy 200 body (lines 850-882): parse failure `continue`s
without incrementing `page`; a non-dict payload or non-list truthy item
collection raises; an empty item list `break`s; fewer than `itemsPerPage = 32`
items `break`s after processing, otherwise the next page is fetched. -/
def handleBody (ctx : ApiCtx) (hint : String) (st : RunSt) (page : Nat) (body : RespBody) :
    StepOut :=
  match body with
  | .invalid => .toPage st page
  | .parsed v =>
    match v with
    | .obj fs =>
      match extractItems fs with
      | .error _ => .err
      | .ok items =>
        match items with
        | .arr xs =>
          if xs.isEmpty then .breakQ st
          else
            match processItems ctx hint xs st with
            | .error _ => .err
            | .ok st' => if xs.length < 32 then .breakQ st' else .toPage st' (page + 1)
        | _ => .err
    | _ => .err
  | .empty => .err

/-- Tail of the loop body after the 456/4xx handling (lines 829-882): the
debug dump is side-effect free; a non-200 or falsy body moves to the next
page, otherwise the body is processed. -/
def finishPage (ctx : ApiCtx) (hint : String) (st : RunSt) (page : Nat)
    (status : Option Nat) (text : Option RespBody) : StepOut :=
  if status != some 200 || textFalsy text then .toPage st (page + 1)
  else
    match text with
    | some body => handleBody ctx hint st page body
    | none => .err

/-- Handling of the attempt-loop result (lines 800-827): a 456 marks the API
blocked and returns; a `None` status reaches `400 <= response_status` and
raises `TypeError`; a 4xx sets `use_browser_api` and, when a driver exists,
immediately re-fetches the same request in the browser. -/
def afterAttempt (ctx : ApiCtx) (hint : String) (st1 : RunSt) (page : Nat)
    (status : Option Nat) (text : Option RespBody) : StepOut :=
  if status == some 456 then .early (markBlockedSt st1)
  else
    match status with
    | none => .err
    | some s =>
      if 400 ≤ s && s < 500 then
        if ctx.hasDriver then
          let r := browserFetch ctx.env { st1 with useBrowserApi := true }
          finishPage ctx hint r.2 page r.1.1 r.1.2
        else finishPage ctx hint { st1 with useBrowserApi := true } page (some s) text
      else finishPage ctx hint st1 page (some s) text

/-- One full iteration of the `while page <= max_pages` body. -/
def stepPage (ctx : ApiCtx) (hint : String) (st : RunSt) (page : Nat) : StepOut :=
  match attemptLoop ctx.env st with
  | .raised => .err
  | .ret412 st' => .early st'
  | .got status text st1 => afterAttempt ctx hint st1 page status text

/-- Result of the `while page <= max_pages` loop for one query. -/
inductive PagesOut where
  | next (st : RunSt)
  | early (st : RunSt)
  | err
  | fuelOut

/-- The `while page <= max_pages` loop (fuel-bounded: the JSON-decode-failure
path repeats a page without incrementing it, so Python can loop forever). -/
def pagesLoop (ctx : ApiCtx) (hint : String) : Nat → Nat → RunSt → PagesOut
  | _, 0, _ => .fuelOut
  | page, fuel + 1, st =>
    if page > ctx.maxPages then .next st
    else
      match stepPage ctx hint st page with
      | .toPage st' p' => pagesLoop ctx hint p' fuel st'
      | .breakQ st' => .next st'
      | .early st' => .early st'
      | .err => .err

/-- Result of a whole `_extract_products_via_api` call. -/
inductive ApiResult where
  | ok (products : List Product) (st : RunSt)
  | err
  | fuelOut
deriving DecidableEq

/-- The fixed `search_queries` list (query, promo hint). -/
def search_queries : List (String × String) :=
  [("rollback", "rollback"), ("clearance", "clearance"), ("deal", "deal")]

/-- The `for query, promo_hint in search_queries` loop. -/
def queriesLoop (ctx : ApiCtx) (fuel : Nat) : List (String × String) → RunSt → ApiResult
  | [], st => .ok st.products st
  | (_, hint) :: rest, st =>
    match pagesLoop ctx hint 1 fuel st with
    | .next st' => queriesLoop ctx fuel rest st'
    | .early st' => .ok st'.products st'
    | .err => .err
    | .fuelOut => .fuelOut

/-- Fresh per-call state (empty `all_products`/`seen_keys`,
`use_browser_api = False`, request counter at zero). -/
def initRunSt (s0 : ScraperState) : RunSt :=
  { scraper := s0, reqCount := 0, useBrowserApi := false, seen := [], products := [] }

/-- `WalmartCanadaScraper._extract_products_via_api`: early empty returns for
a falsy `store_id` and for an already-blocked API, then the query loop. -/
def extract_products_via_api (ctx : ApiCtx) (fuel : Nat) (s0 : ScraperState) : ApiResult :=
  if !optStrTruthy ctx.store_id then .ok [] (initRunSt s0)
  else if s0.api_blocked then .ok [] (initRunSt s0)
  else queriesLoop ctx fuel search_queries (initRunSt s0)

/-! ## `scrape_store_page` -/

/-- Per-attempt environment of `scrape_store_page`: whether `driver.get`
raises (the only exception source reaching the outer `except`, triggering the
retry recursion), the captcha detection/handling outcome (the internals of
`handle_captcha` — 2Captcha, PerimeterX waits — are collapsed into one bit),
`datetime.now().isoformat()`, the `<h1>` text (`none` when `find_element`
raises), the store metadata that `_extract_store_metadata` derives from the
URL and page source, and the API environment of the nested
`_extract_products_via_api` call. -/
structure PageAttemptEnv where
  navFails : Bool
  captchaPresent : Bool
  captchaHandled : Bool
  now : String
  h1Text : Option String
  storeId : Option String
  storeSlug : String
  province : String
  apiEnv : Nat → ApiOutcome
  hasDriver : Bool

/-- Store record built by `scrape_store_page` (the Python dict's keys). -/
structure StoreData where
  url : String
  timestamp : String
  store_name : String
  address : String
  phone : String
  hours : String
  product_count : Nat
  products : List Product
deriving DecidableEq

/-- Body and retry recursion of `scrape_store_page` (`retry` is the Python
argument; the fuel only bounds the recursion depth, which Python bounds by
`retry < max_retries - 1`).  An unresolved captcha returns `None`; an
exception inside the API extraction is swallowed (empty product list); a
diverging API loop (fuel exhaustion) never returns a record. -/
def scrape_store_page_go (env : Nat → PageAttemptEnv) (max_retries apiFuel : Nat)
    (s0 : ScraperState) (store_url : String) : Nat → Nat → Option StoreData
  | _, 0 => none
  | retry, fuel + 1 =>
    let e := env retry
    if e.navFails then
      if retry < max_retries - 1 then
        scrape_store_page_go env max_retries apiFuel s0 store_url (retry + 1) fuel
      else none
    else if e.captchaPresent && !e.captchaHandled then none
    else
      let ctx : ApiCtx :=
        { env := e.apiEnv, hasDriver := e.hasDriver, maxPages := 2,
          store_id := e.storeId, store_slug := e.storeSlug, province := e.province }
      match extract_products_via_api ctx apiFuel s0 with
      | .fuelOut => none
      | r =>
        let prods := match r with
          | .ok l _ => l
          | _ => []
        some { url := store_url, timestamp := e.now,
               store_name := e.h1Text.getD "N/A",
               address := "", phone := "", hours := "",
               product_count := prods.length, products := prods }

/-- `WalmartCanadaScraper.scrape_store_page` (initial call, `retry = 0`). -/
def scrape_store_page (env : Nat → PageAttemptEnv) (max_retries apiFuel : Nat)
    (s0 : ScraperState) (store_url : String) : Option StoreData :=
  scrape_store_page_go env max_retries apiFuel s0 store_url 0 (max_retries + 1)

/-! ## Invariant predicates and concrete claim inputs -/

/-- Environment whose every fetch attempt raises. -/
def fetchEnvBad : Nat → FetchOutcome := fun _ => .raise

/-- Run-state invariant backing C8/C9: the collected products have pairwise
distinct dedup keys, every collected key is recorded in `seen_keys`, and
every collected product carries a truthy promo type. -/
def GoodSt (st : RunSt) : Prop :=
  (st.products.map prodKey).Nodup ∧
  (∀ k ∈ st.products.map prodKey, k ∈ st.seen) ∧
  (∀ p ∈ st.products, optStrTruthy p.promo_type = true)

/-- `GoodSt` lifted to a loop-body outcome. -/
def stepGood : StepOut → Prop
  | .toPage st _ => GoodSt st
  | .breakQ st => GoodSt st
  | .early st => GoodSt st
  | .err => True

/-- `GoodSt` lifted to a page-loop outcome. -/
def pagesGood : PagesOut → Prop
  | .next st => GoodSt st
  | .early st => GoodSt st
  | .err => True
  | .fuelOut => True

/-- `GoodSt` lifted to a whole-call result, together with the returned list
being the state's product list. -/
def apiGood : ApiResult → Prop
  | .ok prods st => GoodSt st ∧ prods = st.products
  | .err => True
  | .fuelOut => True

/-- Flag persistence (C3) lifted to a loop-body outcome. -/
def stepFlagTrue : StepOut → Prop
  | .toPage st _ => st.useBrowserApi = true
  | .breakQ st => st.useBrowserApi = true
  | .early st => st.useBrowserApi = true
  | .err => True

/-- Flag persistence (C3) lifted to a page-loop outcome. -/
def pagesFlagTrue : PagesOut → Prop
  | .next st => st.useBrowserApi = true
  | .early st => st.useBrowserApi = true
  | .err => True
  | .fuelOut => True

/-- Flag persistence (C3) lifted to a whole-call result. -/
def apiFlagTrue : ApiResult → Prop
  | .ok _ st => st.useBrowserApi = true
  | .err => True
  | .fuelOut => True

/-- `api_blocked` flag of a completed run. -/
def apiBlockedOf : ApiResult → Option Bool
  | .ok _ st => some st.scraper.api_blocked
  | _ => none

/-- Request count of a completed run. -/
def reqCountOf : ApiResult → Option Nat
  | .ok _ st => some st.reqCount
  | _ => none

/-- Concrete environment refuting C1: the first (direct) request gets a 404,
its in-browser fallback retry observes HTTP 456, and every later request gets
a clean 200 with an empty item list. -/
def envC1 : Nat → ApiOutcome
  | 0 => .ok 404 .empty
  | 1 => .ok 456 .empty
  | _ + 2 => .ok 200 (.parsed (.obj [("items", .arr [])]))

/-- Fresh scraper state with no proxies and the API not yet blocked. -/
def s0W : ScraperState :=
  { proxy_list := [], current_proxy_index := 0, active_proxy := none, api_blocked := false }

/-- Call context for the C1 counterexample (driver available). -/
def ctxC1 : ApiCtx :=
  { env := envC1, hasDriver := true, maxPages := 2,
    store_id := some "1", store_slug := "slug", province := "on" }

/-- Environment answering HTTP 412 to every request. -/
def env412W : Nat → ApiOutcome := fun _ => .ok 412 .empty

/-- Call context whose every request gets a 412 (for the C2 witness). -/
def ctx412W : ApiCtx :=
  { env := env412W, hasDriver := false, maxPages := 2,
    store_id := some "1", store_slug := "slug", province := "on" }

/-- Environment answering HTTP 456 to every request. -/
def env456W : Nat → ApiOutcome := fun _ => .ok 456 .empty

/-- Call context whose every request gets a 456 (for the C1 witness). -/
def ctx456W : ApiCtx :=
  { env := env456W, hasDriver := false, maxPages := 2,
    store_id := some "1", store_slug := "slug", province := "on" }

/-- Environment answering HTTP 404 with empty items afterwards (C3 witness). -/
def env404W : Nat → ApiOutcome
  | 0 => .ok 404 .empty
  | _ + 1 => .ok 200 (.parsed (.obj [("items", .arr [])]))

/-- Call context for the C3 witness (driver available, first request 4xx). -/
def ctx404W : ApiCtx :=
  { env := env404W, hasDriver := true, maxPages := 2,
    store_id := some "1", store_slug := "slug", province := "on" }

/-- Raw API item refuting C6: a current price of `0` and an original price of
`10` are both found, yet the falsy `0` skips the discount computation. -/
def rawC6 : List (String × JValue) :=
  [("name", .str "X"), ("price", .num 0), ("priceInfo", .obj [("wasPrice", .num 10)])]

/-- Product record that `_normalize_product` builds from `rawC6`. -/
def pC6 : Product :=
  { store_id := "1", store_slug := "s", province := "pr", product_id := .str "",
    sku := .str "", name := .str "X", product_url := .str "", current_price := .num 0,
    original_price := .num 10, discount_percent := none, promo_type := some "deal",
    store_quantity := .null }

/-- Raw API item for the C6 amended-claim witness: prices 5 and 10 give a 50%
discount. -/
def rawC6ok : List (String × JValue) :=
  [("name", .str "X"), ("price", .num 5), ("priceInfo", .obj [("wasPrice", .num 10)])]

/-- Product record that `_normalize_product` builds from `rawC6ok`. -/
def pC6ok : Product :=
  { store_id := "1", store_slug := "s", province := "pr", product_id := .str "",
    sku := .str "", name := .str "X", product_url := .str "", current_price := .num 5,
    original_price := .num 10, discount_percent := some (round2 ((1 - 5 / 10) * 100)),
    promo_type := some "deal", store_quantity := .null }

/-- Per-attempt page environment for the C5 witness: no navigation failure,
no captcha, and no detected store id (so the API call returns no products). -/
def pageEnvW : Nat → PageAttemptEnv := fun _ =>
  { navFails := false, captchaPresent := false, captchaHandled := false,
    now := "2024-01-01T00:00:00", h1Text := some "Walmart Store", storeId := none,
    storeSlug := "store-1", province := "on", apiEnv := fun _ => .ok 200 .empty,
    hasDriver := false }

/-- Store record that `scrape_store_page` builds in the C5 witness run. -/
def storeDataW : StoreData :=
  { url := "https://www.walmart.ca/en/stores/ontario/store-1",
    timestamp := "2024-01-01T00:00:00", store_name := "Walmart Store", address := "",
    phone := "", hours := "", product_count := 0, products := [] }

/-- Raw API item for the C9 witness run. -/
def rawItemW : JValue := .obj [("usItemId", .str "42"), ("name", .str "Toy"),
  ("productPageUrl", .str "/en/p/42")]

/-- Environment answering every request with a 200 and one item (C9 witness). -/
def envItemsW : Nat → ApiOutcome := fun _ => .ok 200 (.parsed (.obj [("items", .arr [rawItemW])]))

/-- Call context for the C9 witness. -/
def ctxItemsW : ApiCtx :=
  { env := envItemsW, hasDriver := false, maxPages := 2,
    store_id := some "1", store_slug := "slug", province := "on" }

/-- Product that `_normalize_product` builds from `rawItemW` on the first
(`rollback`) query. -/
def pW : Product :=
  { store_id := "1", store_slug := "slug", province := "on", product_id := .str "42",
    sku := .str "42", name := .str "Toy",
    product_url := .str "https://www.walmart.ca/en/p/42", current_price := .null,
    original_price := .null, discount_percent := none, promo_type := some "rollback",
    store_quantity := .null }

/-- Final run state of the C9 witness run (the item reappears on the later
queries but its key is already in `seen_keys`). -/
def stW : RunSt :=
  { scraper := s0W, reqCount := 3, useBrowserApi := false,
    seen := [(.str "42", .str "https://www.walmart.ca/en/p/42")], products := [pW] }

/-! ## Helper lemmas for `fetch_html` -/

/-- Success characterization of the `fetch_html` retry loop. -/
theorem fetch_html_go_some (env : Nat → FetchOutcome) :
    ∀ r a t, fetch_html_go env a r = some t →
      ∃ i s, a ≤ i ∧ i < a + r ∧ env i = .resp s t ∧ attemptBad (env i) = false := by
  intro r
  induction r with
  | zero => intro a t h; simp [fetch_html_go] at h
  | succ n ih =>
    intro a t h
    unfold fetch_html_go at h
    cases he : env a with
    | raise =>
      rw [he] at h
      obtain ⟨i, s, hai, hir, hh⟩ := ih (a + 1) t h
      exact ⟨i, s, by omega, by omega, hh⟩
    | resp status text =>
      rw [he] at h
      by_cases hb : isBlockedResp status text
      · simp [hb] at h
        obtain ⟨i, s, hai, hir, hh⟩ := ih (a + 1) t h
        exact ⟨i, s, by omega, by omega, hh⟩
      · by_cases hn : strContains text "__NEXT_DATA__"
        · simp [hb, hn] at h
          subst h
          exact ⟨a, status, le_refl a, by omega, he, by rw [he]; simp [attemptBad, hb, hn]⟩
        · simp [hb, hn] at h
          obtain ⟨i, s, hai, hir, hh⟩ := ih (a + 1) t h
          exact ⟨i, s, by omega, by omega, hh⟩

/-- When every attempt in range fails, the retry loop returns `none`. -/
theorem fetch_html_go_none (env : Nat → FetchOutcome) :
    ∀ r a, (∀ i, a ≤ i → i < a + r → attemptBad (env i) = true) →
      fetch_html_go env a r = none := by
  intro r
  induction r with
  | zero => intro a _; rfl
  | succ n ih =>
    intro a hbad
    unfold fetch_html_go
    cases he : env a with
    | raise => exact ih (a + 1) (fun i h1 h2 => hbad i (by omega) (by omega))
    | resp status text =>
      have hb := hbad a (le_refl a) (by omega)
      rw [he] at hb
      simp only [attemptBad, Bool.or_eq_true] at hb
      by_cases hblk : isBlockedResp status text
      · simp only [hblk, if_true]
        exact ih (a + 1) (fun i h1 h2 => hbad i (by omega) (by omega))
      · have hn : strContains text "__NEXT_DATA__" = false := by
          rcases hb with hb | hb
          · exact absurd hb hblk
          · simpa using hb
        simp only [hblk, hn, if_false, Bool.not_false, if_true]
        exact ih (a + 1) (fun i h1 h2 => hbad i (by omega) (by omega))

/-- The retry loop only inspects the environment at the attempts in range. -/
theorem fetch_html_go_congr (env env' : Nat → FetchOutcome) :
    ∀ r a, (∀ i, a ≤ i → i < a + r → env i = env' i) →
      fetch_html_go env a r = fetch_html_go env' a r := by
  intro r
  induction r with
  | zero => intro a _; rfl
  | succ n ih =>
    intro a hagree
    unfold fetch_html_go
    rw [← hagree a (le_refl a) (by omega)]
    cases env a with
    | raise => exact ih (a + 1) (fun i h1 h2 => hagree i (by omega) (by omega))
    | resp status text =>
      by_cases hb : isBlockedResp status text
      · simp only [hb, if_true]
        exact ih (a + 1) (fun i h1 h2 => hagree i (by omega) (by omega))
      · by_cases hn : strContains text "__NEXT_DATA__"
        · simp [hb, hn]
        · simp only [hb, hn, if_false, Bool.not_false, if_true]
          exact ih (a + 1) (fun i h1 h2 => hagree i (by omega) (by omega))

/-- Key-scanning loop of `normalize_price` as a `findSome?`. -/
theorem firstNumOfKeys_eq (fs : List (String × JValue)) :
    ∀ ks : List String, firstNumOfKeys fs ks =
      ks.findSome? (fun k => if isNum (jGet fs k) then some (toNum (jGet fs k)) else none) := by
  intro ks
  induction ks with
  | nil => rfl
  | cons k rest ih =>
    rw [List.findSome?_cons]
    by_cases h : isNum (jGet fs k) <;> simp [firstNumOfKeys, h, ih]

/-! ## Claim theorems -/

/-- C4: `fetch_html` performs at most `max_attempts` fetch attempts; it
returns a body only when that attempt's status is not one of 403/429/456/503,
no block marker occurs in the body, and the body contains `__NEXT_DATA__`;
when every attempt in range is blocked, invalid, or raises, it returns
`None`. -/
theorem C4_fetch_html_retry_spec :
    (∀ env max_attempts t, fetch_html env max_attempts = some t →
        ∃ i s, i < max_attempts ∧ env i = .resp s t ∧ isBlockedResp s t = false ∧
          strContains t "__NEXT_DATA__" = true) ∧
    (∀ env max_attempts, (∀ i, i < max_attempts → attemptBad (env i) = true) →
        fetch_html env max_attempts = none) ∧
    (∀ env env' max_attempts, (∀ i, i < max_attempts → env i = env' i) →
        fetch_html env max_attempts = fetch_html env' max_attempts) := by
  refine ⟨?_, ?_, ?_⟩
  · intro env m t h
    obtain ⟨i, s, _, hir, he, hbad⟩ := fetch_html_go_some env m 0 t h
    rw [he] at hbad
    simp [attemptBad] at hbad
    exact ⟨i, s, by omega, he, hbad.1, hbad.2⟩
  · intro env m hb
    exact fetch_html_go_none env m 0 (fun i _ h2 => hb i (by omega))
  · intro env env' m hagree
    exact fetch_html_go_congr env env' m 0 (fun i _ h2 => hagree i (by omega))

/-- Witness for C4: with three raising attempts, `fetch_html` returns `None`. -/
theorem C4_fetch_html_retry_spec_witness : fetch_html fetchEnvBad 3 = none :=
  C4_fetch_html_retry_spec.2.1 fetchEnvBad 3 (fun _ _ => rfl)

/-- C7: `normalize_price` agrees pointwise with the claim's description
(`normalize_price_claim`): falsy input gives `None`; a numeric input gives its
float value; a dict yields the first numeric value among `price`, `minPrice`,
`maxPrice`, `priceDisplay`, then the `price`/`amount` inside a nested
`currentPrice`-or-`current` dict; every other case gives `None`. -/
theorem C7_normalize_price_key_order (v : JValue) :
    normalize_price v = normalize_price_claim v := by
  unfold normalize_price normalize_price_claim
  cases v <;> simp [firstNumOfKeys_eq]

/-- C10: `ensure_product_url` always yields a URL starting with `http` (a
relative path is prefixed with `https://www.walmart.com`), and it is
idempotent. -/
theorem C10_ensure_product_url_idempotent (url : String) :
    strStartsWith (ensure_product_url url) "http" = true ∧
    ensure_product_url (ensure_product_url url) = ensure_product_url url := by
  have happ : ∀ s : String, strStartsWith ("https://www.walmart.com" ++ s) "http" = true := by
    intro s
    show ("http".data.isPrefixOf ("https://www.walmart.com" ++ s).data) = true
    rw [String.data_append]
    rfl
  unfold ensure_product_url
  by_cases h : strStartsWith url "http"
  · simp [h]
  · simp [h, happ]

/-! ## State-machine helper lemmas -/

@[simp] theorem bumpReq_products (st : RunSt) : (bumpReq st).products = st.products := rfl

@[simp] theorem bumpReq_seen (st : RunSt) : (bumpReq st).seen = st.seen := rfl

@[simp] theorem bumpReq_flag (st : RunSt) : (bumpReq st).useBrowserApi = st.useBrowserApi := rfl

@[simp] theorem bumpReq_scraper (st : RunSt) : (bumpReq st).scraper = st.scraper := rfl

@[simp] theorem bumpReq_reqCount (st : RunSt) : (bumpReq st).reqCount = st.reqCount + 1 := rfl

@[simp] theorem rotateSt_products (st : RunSt) : (rotateSt st).products = st.products := rfl

@[simp] theorem rotateSt_seen (st : RunSt) : (rotateSt st).seen = st.seen := rfl

@[simp] theorem rotateSt_flag (st : RunSt) : (rotateSt st).useBrowserApi = st.useBrowserApi := rfl

@[simp] theorem markBlockedSt_products (st : RunSt) :
    (markBlockedSt st).products = st.products := rfl

@[simp] theorem markBlockedSt_seen (st : RunSt) : (markBlockedSt st).seen = st.seen := rfl

@[simp] theorem markBlockedSt_flag (st : RunSt) :
    (markBlockedSt st).useBrowserApi = st.useBrowserApi := rfl

/-- `_mark_api_blocked` always leaves `api_blocked` set. -/
theorem mark_api_blocked_blocked (s : ScraperState) :
    (mark_api_blocked s).api_blocked = true := by
  unfold mark_api_blocked
  split
  · assumption
  · unfold rotate_proxy
    split <;> rfl

/-- The state part of an in-browser fetch is just a request-counter bump. -/
theorem browserFetch_snd (env : Nat → ApiOutcome) (st : RunSt) :
    (browserFetch env st).2 = bumpReq st := by
  unfold browserFetch
  cases env st.reqCount <;> rfl

/-- A request whose environment slot holds a response is observed identically
on either channel (direct session or in-browser). -/
theorem fetchOnce_ok (env : Nat → ApiOutcome) (st : RunSt) (s : Nat) (b : RespBody)
    (h : env st.reqCount = .ok s b) :
    fetchOnce env st = some ((some s, some b), bumpReq st) := by
  unfold fetchOnce browserFetch
  split <;> rw [h]

/-- A fetch either raises or delivers some pair while bumping the counter. -/
theorem fetchOnce_cases (env : Nat → ApiOutcome) (st : RunSt) :
    fetchOnce env st = none ∨ ∃ s t, fetchOnce env st = some ((s, t), bumpReq st) := by
  unfold fetchOnce browserFetch
  split
  · cases env st.reqCount <;> simp
  · cases env st.reqCount <;> simp

/-- The attempt loop never touches the product list, the seen keys, the
browser flag, or the scraper attributes on its `got` exit. -/
theorem attemptLoop_got_state (env : Nat → ApiOutcome) (st : RunSt) (s : Option Nat)
    (t : Option RespBody) (st' : RunSt) (h : attemptLoop env st = .got s t st') :
    st'.products = st.products ∧ st'.seen = st.seen ∧
      st'.useBrowserApi = st.useBrowserApi ∧ st'.scraper = st.scraper := by
  unfold attemptLoop at h
  rcases fetchOnce_cases env st with h1 | ⟨s1, t1, h1⟩
  · rw [h1] at h; exact absurd h (by simp)
  · rw [h1] at h
    dsimp only at h
    by_cases h412 : s1 = some 412
    · rw [if_pos (by simp [h412])] at h
      rcases fetchOnce_cases env (bumpReq st) with h2 | ⟨s2, t2, h2⟩
      · rw [h2] at h; exact absurd h (by simp)
      · rw [h2] at h
        dsimp only at h
        by_cases h412b : s2 = some 412
        · rw [if_pos (by simp [h412b])] at h; exact absurd h (by simp)
        · rw [if_neg (by simp [h412b])] at h
          cases h
          simp
    · rw [if_neg (by simp [h412])] at h
      cases h
      simp

/-- The double-412 exit only bumps the counter twice and rotates the proxy. -/
theorem attemptLoop_ret412_state (env : Nat → ApiOutcome) (st : RunSt) (st' : RunSt)
    (h : attemptLoop env st = .ret412 st') :
    st'.products = st.products ∧ st'.seen = st.seen ∧
      st'.useBrowserApi = st.useBrowserApi := by
  unfold attemptLoop at h
  rcases fetchOnce_cases env st with h1 | ⟨s1, t1, h1⟩
  · rw [h1] at h; exact absurd h (by simp)
  · rw [h1] at h
    dsimp only at h
    by_cases h412 : s1 = some 412
    · rw [if_pos (by simp [h412])] at h
      rcases fetchOnce_cases env (bumpReq st) with h2 | ⟨s2, t2, h2⟩
      · rw [h2] at h; exact absurd h (by simp)
      · rw [h2] at h
        dsimp only at h
        by_cases h412b : s2 = some 412
        · rw [if_pos (by simp [h412b])] at h
          cases h
          simp
        · rw [if_neg (by simp [h412b])] at h; exact absurd h (by simp)
    · rw [if_neg (by simp [h412])] at h; exact absurd h (by simp)

/-- Two consecutive 412 responses make the attempt loop rotate the proxy and
signal an early return. -/
theorem attemptLoop_412_twice (env : Nat → ApiOutcome) (st : RunSt) (b b2 : RespBody)
    (h1 : env st.reqCount = .ok 412 b) (h2 : env (st.reqCount + 1) = .ok 412 b2) :
    attemptLoop env st = .ret412 (rotateSt (bumpReq (bumpReq st))) := by
  unfold attemptLoop
  rw [fetchOnce_ok env st 412 b h1]
  dsimp only
  rw [if_pos (by simp)]
  rw [fetchOnce_ok env (bumpReq st) 412 b2 h2]
  dsimp only
  rw [if_pos (by simp)]

/-- A 412 followed by a non-412 response is retried exactly once: the loop
exits with the second response after consuming exactly two requests. -/
theorem attemptLoop_412_then (env : Nat → ApiOutcome) (st : RunSt) (b : RespBody)
    (s2 : Nat) (b2 : RespBody) (h1 : env st.reqCount = .ok 412 b)
    (h2 : env (st.reqCount + 1) = .ok s2 b2) (hne : s2 ≠ 412) :
    attemptLoop env st = .got (some s2) (some b2) (bumpReq (bumpReq st)) := by
  unfold attemptLoop
  rw [fetchOnce_ok env st 412 b h1]
  dsimp only
  rw [if_pos (by simp)]
  rw [fetchOnce_ok env (bumpReq st) s2 b2 h2]
  dsimp only
  rw [if_neg (by simp [hne])]

/-- C2: when a product-search request returns HTTP 412, the caller retries
the same request exactly once (the attempt loop consumes exactly one more
environment slot); if the retry also returns 412, the proxy is rotated and
the loop body returns the products collected so far (early return with the
product list untouched); if the retry returns anything else, the loop exits
with that second response. -/
theorem C2_http412_retry_once (ctx : ApiCtx) (hint : String) (st : RunSt) (page : Nat)
    (b : RespBody) (h1 : ctx.env st.reqCount = .ok 412 b) :
    (∀ b2, ctx.env (st.reqCount + 1) = .ok 412 b2 →
        stepPage ctx hint st page = .early (rotateSt (bumpReq (bumpReq st))) ∧
        (rotateSt (bumpReq (bumpReq st))).products = st.products ∧
        (rotateSt (bumpReq (bumpReq st))).scraper = (rotate_proxy st.scraper).2 ∧
        (rotateSt (bumpReq (bumpReq st))).reqCount = st.reqCount + 2) ∧
    (∀ s2 b2, ctx.env (st.reqCount + 1) = .ok s2 b2 → s2 ≠ 412 →
        attemptLoop ctx.env st = .got (some s2) (some b2) (bumpReq (bumpReq st)) ∧
        (bumpReq (bumpReq st)).reqCount = st.reqCount + 2) := by
  constructor
  · intro b2 h2
    refine ⟨?_, by simp, rfl, rfl⟩
    unfold stepPage
    rw [attemptLoop_412_twice ctx.env st b b2 h1 h2]
  · intro s2 b2 h2 hne
    exact ⟨attemptLoop_412_then ctx.env st b s2 b2 h1 h2 hne, rfl⟩

/-- Witness for C2: with every request answered 412, the first loop body
rotates the proxy and exits early after exactly two requests. -/
theorem C2_http412_retry_once_witness :
    stepPage ctx412W "rollback" (initRunSt s0W) 1 =
      .early (rotateSt (bumpReq (bumpReq (initRunSt s0W)))) ∧
    (rotateSt (bumpReq (bumpReq (initRunSt s0W)))).products = (initRunSt s0W).products :=
  let h := (C2_http412_retry_once ctx412W "rollback" (initRunSt s0W) 1 RespBody.empty rfl).1
    RespBody.empty rfl
  ⟨h.1, h.2.1⟩

/-! ## Browser-fallback flag persistence (C3) -/

/-- The item loop never changes the `use_browser_api` flag. -/
theorem processItems_flag (ctx : ApiCtx) (hint : String) :
    ∀ xs (st st' : RunSt), processItems ctx hint xs st = .ok st' →
      st'.useBrowserApi = st.useBrowserApi := by
  intro xs
  induction xs with
  | nil =>
    intro st st' h
    cases h
    rfl
  | cons raw rest ih =>
    intro st st' h
    unfold processItems at h
    cases raw with
    | null => simp at h
    | bool b => simp at h
    | num q => simp at h
    | str s => simp at h
    | arr xs => simp at h
    | obj rfs =>
      dsimp only at h
      cases hn : normalize_product rfs ctx.store_id ctx.store_slug ctx.province
          (detect_promo_type rfs (some hint)) with
      | error e => rw [hn] at h; exact absurd h (by simp)
      | ok o =>
        rw [hn] at h
        cases o with
        | none => exact ih st st' h
        | some p =>
          dsimp only at h
          by_cases hs : st.seen.contains (prodKey p)
          · rw [if_pos hs] at h
            exact ih st st' h
          · rw [if_neg hs] at h
            have := ih _ _ h
            simpa using this

/-- Body processing keeps a set `use_browser_api` flag set. -/
theorem handleBody_flag (ctx : ApiCtx) (hint : String) (st : RunSt) (page : Nat)
    (body : RespBody) (h : st.useBrowserApi = true) :
    stepFlagTrue (handleBody ctx hint st page body) := by
  unfold handleBody
  cases body with
  | invalid => exact h
  | empty => trivial
  | parsed v =>
    cases v with
    | obj fs =>
      dsimp only
      cases he : extractItems fs with
      | error e => trivial
      | ok items =>
        cases items with
        | arr xs =>
          dsimp only
          by_cases hxs : xs.isEmpty
          · rw [if_pos hxs]; exact h
          · rw [if_neg hxs]
            cases hp : processItems ctx hint xs st with
            | error e => trivial
            | ok st' =>
              dsimp only
              have hf : st'.useBrowserApi = true := by
                rw [processItems_flag ctx hint xs st st' hp]; exact h
              by_cases hlen : xs.length < 32
              · rw [if_pos hlen]; exact hf
              · rw [if_neg hlen]; exact hf
        | null => trivial
        | bool b => trivial
        | num q => trivial
        | str s => trivial
        | obj gs => trivial
    | null => trivial
    | bool b => trivial
    | num q => trivial
    | str s => trivial
    | arr xs => trivial

/-- The loop-body tail keeps a set `use_browser_api` flag set. -/
theorem finishPage_flag (ctx : ApiCtx) (hint : String) (st : RunSt) (page : Nat)
    (status : Option Nat) (text : Option RespBody) (h : st.useBrowserApi = true) :
    stepFlagTrue (finishPage ctx hint st page status text) := by
  unfold finishPage
  split
  · exact h
  · cases text with
    | none => trivial
    | some body => exact handleBody_flag ctx hint st page body h

/-- The post-attempt handling keeps a set `use_browser_api` flag set. -/
theorem afterAttempt_flag (ctx : ApiCtx) (hint : String) (st1 : RunSt) (page : Nat)
    (status : Option Nat) (text : Option RespBody) (h : st1.useBrowserApi = true) :
    stepFlagTrue (afterAttempt ctx hint st1 page status text) := by
  unfold afterAttempt
  split
  · simpa using h
  · cases status with
    | none => trivial
    | some s =>
      dsimp only
      by_cases h4 : (400 ≤ s && decide (s < 500)) = true
      · rw [if_pos h4]
        by_cases hd : ctx.hasDriver
        · rw [if_pos hd]
          rw [browserFetch_snd]
          exact finishPage_flag ctx hint _ page _ _ rfl
        · rw [if_neg hd]
          exact finishPage_flag ctx hint _ page _ _ rfl
      · rw [if_neg h4]
        exact finishPage_flag ctx hint st1 page (some s) text h

/-- One loop body keeps a set `use_browser_api` flag set. -/
theorem stepPage_flag (ctx : ApiCtx) (hint : String) (st : RunSt) (page : Nat)
    (h : st.useBrowserApi = true) : stepFlagTrue (stepPage ctx hint st page) := by
  unfold stepPage
  cases ha : attemptLoop ctx.env st with
  | raised => trivial
  | ret412 st' =>
    have := (attemptLoop_ret412_state ctx.env st st' ha).2.2
    simp only [stepFlagTrue]
    rw [this]; exact h
  | got status text st1 =>
    have hf := (attemptLoop_got_state ctx.env st status text st1 ha).2.2.1
    exact afterAttempt_flag ctx hint st1 page status text (by rw [hf]; exact h)

/-- The page loop keeps a set `use_browser_api` flag set. -/
theorem pagesLoop_flag (ctx : ApiCtx) (hint : String) :
    ∀ fuel page (st : RunSt), st.useBrowserApi = true →
      pagesFlagTrue (pagesLoop ctx hint page fuel st) := by
  intro fuel
  induction fuel with
  | zero => intro page st h; trivial
  | succ n ih =>
    intro page st h
    unfold pagesLoop
    by_cases hp : page > ctx.maxPages
    · rw [if_pos hp]; exact h
    · rw [if_neg hp]
      have hs := stepPage_flag ctx hint st page h
      cases hstep : stepPage ctx hint st page with
      | toPage st' p' =>
        rw [hstep] at hs
        exact ih p' st' hs
      | breakQ st' => rw [hstep] at hs; exact hs
      | early st' => rw [hstep] at hs; exact hs
      | err => trivial

/-- The query loop keeps a set `use_browser_api` flag set. -/
theorem queriesLoop_flag (ctx : ApiCtx) (fuel : Nat) :
    ∀ qs (st : RunSt), st.useBrowserApi = true →
      apiFlagTrue (queriesLoop ctx fuel qs st) := by
  intro qs
  induction qs with
  | nil => intro st h; exact h
  | cons qh rest ih =>
    intro st h
    unfold queriesLoop
    obtain ⟨q, hint⟩ := qh
    have hp := pagesLoop_flag ctx hint fuel 1 st h
    cases hl : pagesLoop ctx hint 1 fuel st with
    | next st' => rw [hl] at hp; exact ih st' hp
    | early st' => rw [hl] at hp; exact hp
    | err => trivial
    | fuelOut => trivial

/-- With the flag set, every fetch goes through the in-browser channel. -/
theorem fetchOnce_browser (env : Nat → ApiOutcome) (st : RunSt)
    (h : st.useBrowserApi = true) : fetchOnce env st = some (browserFetch env st) := by
  unfold fetchOnce
  rw [if_pos h]

/-- A 4xx status other than 456 (412 cannot reach this point) with a driver
available immediately re-fetches the same request in the browser with the
flag set. -/
theorem afterAttempt_4xx (ctx : ApiCtx) (hint : String) (st1 : RunSt) (page : Nat)
    (s : Nat) (text : Option RespBody) (h4 : 400 ≤ s) (h5 : s < 500) (hne6 : s ≠ 456)
    (hd : ctx.hasDriver = true) :
    afterAttempt ctx hint st1 page (some s) text =
      finishPage ctx hint (bumpReq { st1 with useBrowserApi := true }) page
        (browserFetch ctx.env { st1 with useBrowserApi := true }).1.1
        (browserFetch ctx.env { st1 with useBrowserApi := true }).1.2 := by
  unfold afterAttempt
  rw [if_neg (by simp [hne6])]
  dsimp only
  rw [if_pos (by simp [h4, h5])]
  rw [if_pos hd]
  rw [browserFetch_snd]

/-- C3: when a product-search request returns a 4xx status other than 412 and
456, the caller sets `use_browser_api` and immediately retries the same
request via the in-browser fetch (when a driver is available), and from then
on every fetch in that call uses the in-browser channel (the flag, once set,
persists through the page and query loops, and a set flag routes every fetch
through `fetch_walmart_api_via_browser`). -/
theorem C3_4xx_browser_fallback :
    (∀ ctx hint st page s b st1, attemptLoop ctx.env st = .got (some s) (some b) st1 →
        400 ≤ s → s < 500 → s ≠ 412 → s ≠ 456 → ctx.hasDriver = true →
        stepPage ctx hint st page =
          finishPage ctx hint (bumpReq { st1 with useBrowserApi := true }) page
            (browserFetch ctx.env { st1 with useBrowserApi := true }).1.1
            (browserFetch ctx.env { st1 with useBrowserApi := true }).1.2 ∧
        (bumpReq { st1 with useBrowserApi := true }).useBrowserApi = true) ∧
    (∀ env st, st.useBrowserApi = true → fetchOnce env st = some (browserFetch env st)) ∧
    (∀ ctx hint fuel page st, st.useBrowserApi = true →
        pagesFlagTrue (pagesLoop ctx hint page fuel st)) ∧
    (∀ ctx fuel qs st, st.useBrowserApi = true → apiFlagTrue (queriesLoop ctx fuel qs st)) := by
  refine ⟨?_, fetchOnce_browser, ?_, ?_⟩
  · intro ctx hint st page s b st1 ha h4 h5 _ hne6 hd
    constructor
    · unfold stepPage
      rw [ha]
      exact afterAttempt_4xx ctx hint st1 page s (some b) h4 h5 hne6 hd
    · rfl
  · intro ctx hint fuel page st h
    exact pagesLoop_flag ctx hint fuel page st h
  · intro ctx fuel qs st h
    exact queriesLoop_flag ctx fuel qs st h

/-- Witness for C3: a first request answered 404 with a driver available
makes the loop body continue with an immediate in-browser retry. -/
theorem C3_4xx_browser_fallback_witness :
    stepPage ctx404W "rollback" (initRunSt s0W) 1 =
      finishPage ctx404W "rollback"
        (bumpReq { bumpReq (initRunSt s0W) with useBrowserApi := true }) 1
        (browserFetch ctx404W.env { bumpReq (initRunSt s0W) with useBrowserApi := true }).1.1
        (browserFetch ctx404W.env { bumpReq (initRunSt s0W) with useBrowserApi := true }).1.2 :=
  (C3_4xx_browser_fallback.1 ctx404W "rollback" (initRunSt s0W) 1 404 RespBody.empty
      (bumpReq (initRunSt s0W)) rfl (by decide) (by decide) (by decide) (by decide) rfl).1

/-! ## HTTP 456 blocking (C1) -/

/-- C1 (amended): once the status selected by the attempt loop (the primary
request, before any 4xx browser fallback) is 456, the loop body marks the API
blocked, leaves the product list untouched, and returns early; an early
return makes the call return the products accumulated so far; and a call
entered with `api_blocked` set returns an empty list without consuming any
environment slot (no API request is issued). -/
theorem C1_api_blocked_456 :
    (∀ ctx hint st page text st1, attemptLoop ctx.env st = .got (some 456) text st1 →
        stepPage ctx hint st page = .early (markBlockedSt st1) ∧
        (markBlockedSt st1).scraper.api_blocked = true ∧
        (markBlockedSt st1).products = st.products) ∧
    (∀ ctx hint q rest fuel st st', 1 ≤ ctx.maxPages →
        stepPage ctx hint st 1 = .early st' →
        queriesLoop ctx (fuel + 1) ((q, hint) :: rest) st = .ok st'.products st') ∧
    (∀ ctx fuel s0, s0.api_blocked = true →
        extract_products_via_api ctx fuel s0 = .ok [] (initRunSt s0) ∧
        (initRunSt s0).reqCount = 0) := by
  refine ⟨?_, ?_, ?_⟩
  · intro ctx hint st page text st1 ha
    have hst := attemptLoop_got_state ctx.env st (some 456) text st1 ha
    refine ⟨?_, mark_api_blocked_blocked st1.scraper, by simp [hst.1]⟩
    unfold stepPage afterAttempt
    rw [ha]
    dsimp only
    rw [if_pos (by simp)]
  · intro ctx hint q rest fuel st st' hmax hstep
    unfold queriesLoop pagesLoop
    rw [if_neg (by omega), hstep]
  · intro ctx fuel s0 hb
    refine ⟨?_, rfl⟩
    unfold extract_products_via_api
    by_cases hsid : optStrTruthy ctx.store_id
    · simp [hsid, hb]
    · simp [hsid]

/-- C1 (counterexample to the claim as stated): in the `envC1` run the second
issued request — the in-browser fallback retry of a 404 — observes HTTP 456
(first conjunct), yet the call completes with `api_blocked` still `False`
and five requests consumed, i.e. three further API requests are issued after
the 456 was observed. -/
theorem C1_counterexample :
    envC1 1 = ApiOutcome.ok 456 RespBody.empty ∧
    apiBlockedOf (extract_products_via_api ctxC1 20 s0W) = some false ∧
    reqCountOf (extract_products_via_api ctxC1 20 s0W) = some 5 := by
  refine ⟨rfl, ?_, ?_⟩ <;> rfl

/-- Witness for C1 (amended): a first request answered 456 marks the API
blocked, and a call entered in that blocked state returns no products. -/
theorem C1_api_blocked_456_witness :
    (stepPage ctx456W "rollback" (initRunSt s0W) 1 =
      .early (markBlockedSt (bumpReq (initRunSt s0W)))) ∧
    extract_products_via_api ctx456W 5 (markBlockedSt (bumpReq (initRunSt s0W))).scraper =
      .ok [] (initRunSt (markBlockedSt (bumpReq (initRunSt s0W))).scraper) :=
  ⟨(C1_api_blocked_456.1 ctx456W "rollback" (initRunSt s0W) 1 (some RespBody.empty)
      (bumpReq (initRunSt s0W)) rfl).1,
   (C1_api_blocked_456.2.2 ctx456W 5 (markBlockedSt (bumpReq (initRunSt s0W))).scraper rfl).1⟩

/-! ## `_normalize_product` inversion (C6, C8) -/

/-- Inversion on a successful `_normalize_product`: the record stores the
promo type it was given (necessarily truthy), and its discount percent is
computed from the stored prices by the source's guarded formula. -/
theorem normalize_product_some (raw : List (String × JValue)) (sid : Option String)
    (slug prov : String) (pt : Option String) (p : Product)
    (h : normalize_product raw sid slug prov pt = .ok (some p)) :
    p.promo_type = pt ∧ optStrTruthy pt = true ∧
    p.discount_percent =
      (if truthy p.current_price && truthy p.original_price then
        match pyFloat p.current_price, pyFloat p.original_price with
        | some c, some o => if o == 0 then none else some (round2 ((1 - c / o) * 100))
        | _, _ => none
      else none) := by
  unfold normalize_product at h
  by_cases hpt : optStrTruthy pt
  · rw [if_neg (by simp [hpt])] at h
    dsimp only at h
    split at h
    · exact absurd h (by simp)
    · split at h
      · exact absurd h (by simp)
      · simp only [Except.ok.injEq, Option.some.injEq] at h
        subst h
        refine ⟨rfl, hpt, ?_⟩
        simp [pyDiscount]
  · rw [if_pos (by simp [hpt])] at h
    exact absurd h (by simp)

/-- With a falsy promo type, `_normalize_product` returns `None`. -/
theorem normalize_product_falsy_promo (raw : List (String × JValue)) (sid : Option String)
    (slug prov : String) (pt : Option String) (hpt : optStrTruthy pt = false) :
    normalize_product raw sid slug prov pt = .ok none := by
  unfold normalize_product
  rw [if_pos (by simp [hpt])]

/-- C6 (counterexample to the claim as stated): for `rawC6` both a current
price (`0`) and an original price (`10`) are found, so the claim's formula
gives `round((1 - 0/10) * 100, 2) = 100`, yet the record's discount percent
is `None` (the Python guard `if current_price and original_price` is falsy at
`0`). -/
theorem C6_counterexample :
    normalize_product rawC6 (some "1") "s" "pr" (some "deal") = .ok (some pC6) ∧
    pC6.current_price = .num 0 ∧ pC6.original_price = .num 10 ∧
    pC6.discount_percent = none ∧
    round2 ((1 - 0 / 10) * 100) = 100 := by
  refine ⟨by decide, rfl, rfl, rfl, by norm_num [round2]⟩

/-- C6 (amended): every record returned by `_normalize_product` carries the
store/sku/name/url/price/promo/quantity fields (the `Product` structure), and
its discount percent equals `round((1 - current/original) * 100, 2)` exactly
when both stored prices are truthy and both convert to numbers with a nonzero
original; in every other case it is `None`. -/
theorem C6_discount_formula (raw : List (String × JValue)) (sid : Option String)
    (slug prov : String) (pt : Option String) (p : Product)
    (h : normalize_product raw sid slug prov pt = .ok (some p)) :
    p.discount_percent =
      (if truthy p.current_price && truthy p.original_price then
        match pyFloat p.current_price, pyFloat p.original_price with
        | some c, some o => if o == 0 then none else some (round2 ((1 - c / o) * 100))
        | _, _ => none
      else none) :=
  (normalize_product_some raw sid slug prov pt p h).2.2

/-- Witness for C6 (amended): `rawC6ok` (prices 5 and 10) yields a record
whose discount percent obeys the guarded formula and equals 50. -/
theorem C6_discount_formula_witness :
    pC6ok.discount_percent =
      (if truthy pC6ok.current_price && truthy pC6ok.original_price then
        match pyFloat pC6ok.current_price, pyFloat pC6ok.original_price with
        | some c, some o => if o == 0 then none else some (round2 ((1 - c / o) * 100))
        | _, _ => none
      else none) ∧
    pC6ok.discount_percent = some 50 :=
  ⟨C6_discount_formula rawC6ok (some "1") "s" "pr" (some "deal") pC6ok rfl,
   by norm_num [pC6ok, round2]⟩

/-! ## Dedup/promo invariant (C8, C9) -/

/-- `GoodSt` only depends on the product list and the seen keys. -/
theorem GoodSt_congr (st st' : RunSt) (hp : st'.products = st.products)
    (hs : st'.seen = st.seen) (hg : GoodSt st) : GoodSt st' := by
  unfold GoodSt at *
  rw [hp, hs]
  exact hg

/-- The item loop preserves the dedup/promo invariant: a product is appended
only when its key is fresh, its key is recorded, and (by
`normalize_product_some`) it carries the truthy promo type. -/
theorem processItems_good (ctx : ApiCtx) (hint : String) :
    ∀ xs (st st' : RunSt), processItems ctx hint xs st = .ok st' → GoodSt st → GoodSt st' := by
  intro xs
  induction xs with
  | nil =>
    intro st st' h hg
    cases h
    exact hg
  | cons raw rest ih =>
    intro st st' h hg
    unfold processItems at h
    cases raw with
    | null => simp at h
    | bool b => simp at h
    | num q => simp at h
    | str s => simp at h
    | arr xs2 => simp at h
    | obj rfs =>
      dsimp only at h
      cases hn : normalize_product rfs ctx.store_id ctx.store_slug ctx.province
          (detect_promo_type rfs (some hint)) with
      | error e => rw [hn] at h; exact absurd h (by simp)
      | ok o =>
        rw [hn] at h
        cases o with
        | none => exact ih st st' h hg
        | some p =>
          dsimp only at h
          by_cases hs : st.seen.contains (prodKey p)
          · rw [if_pos hs] at h
            exact ih st st' h hg
          · rw [if_neg hs] at h
            refine ih _ st' h ?_
            obtain ⟨hnd, hsub, hpromo⟩ := hg
            have hnotmem : prodKey p ∉ st.products.map prodKey := by
              intro hmem
              exact hs (List.elem_eq_true_of_mem (hsub _ hmem))
            refine ⟨?_, ?_, ?_⟩
            · dsimp only
              rw [List.map_append]
              rw [List.nodup_append]
              refine ⟨hnd, by simp, ?_⟩
              intro k hk
              simp only [List.map_cons, List.map_nil, List.mem_singleton]
              intro hkp
              rw [hkp] at hk
              exact hnotmem hk
            · intro k hk
              dsimp only at hk ⊢
              rw [List.map_append] at hk
              rcases List.mem_append.mp hk with hk | hk
              · exact List.mem_cons_of_mem _ (hsub k hk)
              · simp only [List.map_cons, List.map_nil, List.mem_singleton] at hk
                rw [hk]
                exact List.mem_cons_self _ _
            · intro q hq
              dsimp only at hq
              rcases List.mem_append.mp hq with hq | hq
              · exact hpromo q hq
              · simp only [List.mem_singleton] at hq
                rw [hq]
                have hps := normalize_product_some rfs ctx.store_id ctx.store_slug
                  ctx.province _ p hn
                rw [hps.1]
                exact hps.2.1

/-- Body processing preserves the dedup/promo invariant. -/
theorem handleBody_good (ctx : ApiCtx) (hint : String) (st : RunSt) (page : Nat)
    (body : RespBody) (hg : GoodSt st) : stepGood (handleBody ctx hint st page body) := by
  unfold handleBody
  cases body with
  | invalid => exact hg
  | empty => trivial
  | parsed v =>
    cases v with
    | obj fs =>
      dsimp only
      cases he : extractItems fs with
      | error e => trivial
      | ok items =>
        cases items with
        | arr xs =>
          dsimp only
          by_cases hxs : xs.isEmpty
          · rw [if_pos hxs]; exact hg
          · rw [if_neg hxs]
            cases hp : processItems ctx hint xs st with
            | error e => trivial
            | ok st' =>
              dsimp only
              have hg' := processItems_good ctx hint xs st st' hp hg
              by_cases hlen : xs.length < 32
              · rw [if_pos hlen]; exact hg'
              · rw [if_neg hlen]; exact hg'
        | null => trivial
        | bool b => trivial
        | num q => trivial
        | str s => trivial
        | obj gs => trivial
    | null => trivial
    | bool b => trivial
    | num q => trivial
    | str s => trivial
    | arr xs => trivial

/-- The loop-body tail preserves the dedup/promo invariant. -/
theorem finishPage_good (ctx : ApiCtx) (hint : String) (st : RunSt) (page : Nat)
    (status : Option Nat) (text : Option RespBody) (hg : GoodSt st) :
    stepGood (finishPage ctx hint st page status text) := by
  unfold finishPage
  split
  · exact hg
  · cases text with
    | none => trivial
    | some body => exact handleBody_good ctx hint st page body hg

/-- The post-attempt handling preserves the dedup/promo invariant. -/
theorem afterAttempt_good (ctx : ApiCtx) (hint : String) (st1 : RunSt) (page : Nat)
    (status : Option Nat) (text : Option RespBody) (hg : GoodSt st1) :
    stepGood (afterAttempt ctx hint st1 page status text) := by
  unfold afterAttempt
  split
  · exact GoodSt_congr st1 _ (by simp) (by simp) hg
  · cases status with
    | none => trivial
    | some s =>
      dsimp only
      by_cases h4 : (400 ≤ s && decide (s < 500)) = true
      · rw [if_pos h4]
        by_cases hd : ctx.hasDriver
        · rw [if_pos hd]
          rw [browserFetch_snd]
          refine finishPage_good ctx hint _ page _ _ ?_
          exact GoodSt_congr st1 _ (by simp) (by simp) hg
        · rw [if_neg hd]
          refine finishPage_good ctx hint _ page _ _ ?_
          exact GoodSt_congr st1 _ (by simp) (by simp) hg
      · rw [if_neg h4]
        exact finishPage_good ctx hint st1 page (some s) text hg

/-- One loop body preserves the dedup/promo invariant. -/
theorem stepPage_good (ctx : ApiCtx) (hint : String) (st : RunSt) (page : Nat)
    (hg : GoodSt st) : stepGood (stepPage ctx hint st page) := by
  unfold stepPage
  cases ha : attemptLoop ctx.env st with
  | raised => trivial
  | ret412 st' =>
    have hst := attemptLoop_ret412_state ctx.env st st' ha
    exact GoodSt_congr st st' hst.1 hst.2.1 hg
  | got status text st1 =>
    have hst := attemptLoop_got_state ctx.env st status text st1 ha
    exact afterAttempt_good ctx hint st1 page status text
      (GoodSt_congr st st1 hst.1 hst.2.1 hg)

/-- The page loop preserves the dedup/promo invariant. -/
theorem pagesLoop_good (ctx : ApiCtx) (hint : String) :
    ∀ fuel page (st : RunSt), GoodSt st → pagesGood (pagesLoop ctx hint page fuel st) := by
  intro fuel
  induction fuel with
  | zero => intro page st hg; trivial
  | succ n ih =>
    intro page st hg
    unfold pagesLoop
    by_cases hp : page > ctx.maxPages
    · rw [if_pos hp]; exact hg
    · rw [if_neg hp]
      have hs := stepPage_good ctx hint st page hg
      cases hstep : stepPage ctx hint st page with
      | toPage st' p' => rw [hstep] at hs; exact ih p' st' hs
      | breakQ st' => rw [hstep] at hs; exact hs
      | early st' => rw [hstep] at hs; exact hs
      | err => trivial

/-- The query loop preserves the dedup/promo invariant. -/
theorem queriesLoop_good (ctx : ApiCtx) (fuel : Nat) :
    ∀ qs (st : RunSt), GoodSt st → apiGood (queriesLoop ctx fuel qs st) := by
  intro qs
  induction qs with
  | nil => intro st hg; exact ⟨hg, rfl⟩
  | cons qh rest ih =>
    intro st hg
    unfold queriesLoop
    obtain ⟨q, hint⟩ := qh
    have hp := pagesLoop_good ctx hint fuel 1 st hg
    cases hl : pagesLoop ctx hint 1 fuel st with
    | next st' => rw [hl] at hp; exact ih st' hp
    | early st' => rw [hl] at hp; exact ⟨hp, rfl⟩
    | err => trivial
    | fuelOut => trivial

/-- Every completed `_extract_products_via_api` call satisfies the
dedup/promo invariant, and returns exactly its state's product list. -/
theorem extract_good (ctx : ApiCtx) (fuel : Nat) (s0 : ScraperState) :
    apiGood (extract_products_via_api ctx fuel s0) := by
  unfold extract_products_via_api
  have hinit : GoodSt (initRunSt s0) := by
    refine ⟨by simp [initRunSt], ?_, ?_⟩ <;> intro x hx <;> simp [initRunSt] at hx
  by_cases hsid : optStrTruthy ctx.store_id
  · rw [if_neg (by simp [hsid])]
    by_cases hb : s0.api_blocked
    · rw [if_pos hb]; exact ⟨hinit, rfl⟩
    · rw [if_neg hb]; exact queriesLoop_good ctx fuel search_queries (initRunSt s0) hinit
  · rw [if_pos (by simp [hsid])]; exact ⟨hinit, rfl⟩

/-- C9: the product list returned by `_extract_products_via_api` never
contains two entries with the same `(product_id, product_url)` pair. -/
theorem C9_no_duplicate_product_keys (ctx : ApiCtx) (fuel : Nat) (s0 : ScraperState)
    (prods : List Product) (st : RunSt)
    (h : extract_products_via_api ctx fuel s0 = .ok prods st) :
    (prods.map prodKey).Nodup ∧ prods.Pairwise (fun p q => prodKey p ≠ prodKey q) := by
  have hg := extract_good ctx fuel s0
  rw [h] at hg
  obtain ⟨⟨hnd, _, _⟩, hpr⟩ := hg
  constructor
  · rw [hpr]; exact hnd
  · rw [hpr]; exact List.pairwise_map.mp hnd

/-- Witness for C9: a run whose item reappears on all three queries returns
it once, with pairwise-distinct keys. -/
theorem C9_no_duplicate_product_keys_witness :
    (([pW] : List Product).map prodKey).Nodup ∧
    ([pW] : List Product).Pairwise (fun p q => prodKey p ≠ prodKey q) :=
  C9_no_duplicate_product_keys ctxItemsW 9 s0W [pW] stW (by decide)

/-- C8: `_normalize_product` returns `None` whenever the detected promo type
is falsy, and every product in a completed `_extract_products_via_api` result
carries a non-`None` (indeed truthy) promo type. -/
theorem C8_promo_required :
    (∀ raw sid slug prov pt, optStrTruthy pt = false →
        normalize_product raw sid slug prov pt = .ok none) ∧
    (∀ ctx fuel s0 prods st, extract_products_via_api ctx fuel s0 = .ok prods st →
        ∀ p ∈ prods, p.promo_type ≠ none ∧ optStrTruthy p.promo_type = true) := by
  refine ⟨normalize_product_falsy_promo, ?_⟩
  intro ctx fuel s0 prods st h p hp
  have hg := extract_good ctx fuel s0
  rw [h] at hg
  obtain ⟨⟨_, _, hpromo⟩, hpr⟩ := hg
  have ht := hpromo p (by rw [← hpr]; exact hp)
  refine ⟨?_, ht⟩
  intro hnone
  rw [hnone] at ht
  simp [optStrTruthy] at ht

/-- Witness for C8: with no promo type detected, `rawC6` is rejected. -/
theorem C8_promo_required_witness :
    normalize_product rawC6 (some "1") "s" "pr" none = .ok none :=
  C8_promo_required.1 rawC6 (some "1") "s" "pr" none rfl

/-! ## `scrape_store_page` record shape (C5) -/

/-- Every record the `scrape_store_page` body/retry recursion returns has the
requested URL and a consistent product count. -/
theorem scrape_store_page_go_some (env : Nat → PageAttemptEnv) (mr af : Nat)
    (s0 : ScraperState) (url : String) :
    ∀ fuel retry d, scrape_store_page_go env mr af s0 url retry fuel = some d →
      d.url = url ∧ d.product_count = d.products.length := by
  intro fuel
  induction fuel with
  | zero => intro retry d h; simp [scrape_store_page_go] at h
  | succ n ih =>
    intro retry d h
    unfold scrape_store_page_go at h
    by_cases hnav : (env retry).navFails
    · rw [if_pos hnav] at h
      by_cases hr : retry < mr - 1
      · rw [if_pos hr] at h
        exact ih (retry + 1) d h
      · rw [if_neg hr] at h
        exact absurd h (by simp)
    · rw [if_neg hnav] at h
      by_cases hc : ((env retry).captchaPresent && !(env retry).captchaHandled) = true
      · rw [if_pos hc] at h
        exact absurd h (by simp)
      · rw [if_neg hc] at h
        dsimp only at h
        split at h
        · exact absurd h (by simp)
        · simp only [Option.some.injEq] at h
          subst h
          exact ⟨rfl, rfl⟩

/-- C5: every store record returned (non-`None`) by `scrape_store_page` is a
`StoreData` record (url, timestamp, store name, address, phone, hours,
product count, product list) whose `url` equals the requested store URL and
whose product count equals the length of its product list. -/
theorem C5_store_record_shape (env : Nat → PageAttemptEnv) (max_retries apiFuel : Nat)
    (s0 : ScraperState) (store_url : String) (d : StoreData)
    (h : scrape_store_page env max_retries apiFuel s0 store_url = some d) :
    d.url = store_url ∧ d.product_count = d.products.length :=
  scrape_store_page_go_some env max_retries apiFuel s0 store_url (max_retries + 1) 0 d h

/-- Witness for C5: a clean single-attempt run returns `storeDataW` with the
requested URL. -/
theorem C5_store_record_shape_witness :
    storeDataW.url = "https://www.walmart.ca/en/stores/ontario/store-1" ∧
    storeDataW.product_count = storeDataW.products.length :=
  C5_store_record_shape pageEnvW 3 5 s0W
    "https://www.walmart.ca/en/stores/ontario/store-1" storeDataW (by decide)
